import Mathlib

/-!
Verification of the go-postgres data-access layer (`src/postgres/Config.go`,
`src/postgres/Postgres.go`, and the unnamed `Client` variant).

The Go code is shallowly embedded: environment access becomes an explicit
`String → String` map (Go's `os.Getenv` returns `""` for unset variables),
`fmt.Sprintf` with `%s` verbs and `strconv.ParseBool` are modelled after the
Go standard library, and the gorm engine underneath the CRUD wrappers is
modelled over an explicit store of rows, with driver faults made explicit
as parameters.
-/

namespace GoPostgres

/-- Modelled from the Go standard library: `strconv.ParseBool` accepts exactly
`1, t, T, TRUE, true, True` (true) and `0, f, F, FALSE, false, False` (false);
every other string is a parse error, rendered here as `none`. -/
def parseBool (s : String) : Option Bool :=
  if s = "1" ∨ s = "t" ∨ s = "T" ∨ s = "TRUE" ∨ s = "true" ∨ s = "True" then some true
  else if s = "0" ∨ s = "f" ∨ s = "F" ∨ s = "FALSE" ∨ s = "false" ∨ s = "False" then some false
  else none

/-- Modelled from the Go standard library: the character-level worker for
`fmt.Sprintf` restricted to the `%s` verb, substituting arguments in order;
a `%s` left without an argument renders Go's missing-argument marker. -/
def sprintfAux : List Char → List String → List Char
  | [], _ => []
  | '%' :: 's' :: rest, a :: args => a.data ++ sprintfAux rest args
  | '%' :: 's' :: rest, [] => "%!s(MISSING)".data ++ sprintfAux rest []
  | c :: rest, args => c :: sprintfAux rest args

/-- Modelled from the Go standard library: `fmt.Sprintf` restricted to `%s`. -/
def sprintf (fmt : String) (args : List String) : String :=
  ⟨sprintfAux fmt.data args⟩

/-- The `Config` struct of `src/postgres/Config.go`. -/
structure Config where
  Host : String
  Port : String
  User : String
  Password : String
  DBName : String
  Schema : String
  SSLMode : String
  Debug : Bool
deriving DecidableEq, Repr

/-- `getEnv` from `src/postgres/Config.go`: the variable's value, or the
default when it is unset (Go's `os.Getenv` returns `""` then). -/
def getEnv (env : String → String) (key defaultValue : String) : String :=
  let value := env key
  if value = "" then defaultValue else value

/-- `getEnvAsBool` from `src/postgres/Config.go`. The first component is the
Go return value; the second records whether the warning branch (the
`log.Printf` for a non-empty, unparseable value) executed. -/
def getEnvAsBool (env : String → String) (key : String) (defaultVal : Bool) : Bool × Bool :=
  let valStr := env key
  if valStr = "" then (defaultVal, false)
  else
    match parseBool valStr with
    | some v => (v, false)
    | none => (defaultVal, true)

/-- `NewConfig` from `src/postgres/Config.go`. -/
def NewConfig (env : String → String) : Config :=
  ⟨getEnv env "DB_HOST" "localhost",
   getEnv env "DB_PORT" "5432",
   getEnv env "DB_USER" "postgres",
   getEnv env "DB_PASSWORD" "postgres",
   getEnv env "DB_NAME" "postgres",
   getEnv env "DB_SCHEMA" "public",
   getEnv env "DB_SSL_MODE" "disable",
   (getEnvAsBool env "DB_DEBUG_MODE" true).1⟩

/-- `GetDSN` from `src/postgres/Config.go`: `fmt.Sprintf` over the seven
string fields. -/
def Config.GetDSN (c : Config) : String :=
  sprintf "host=%s port=%s user=%s password=%s dbname=%s search_path=%s sslmode=%s"
    [c.Host, c.Port, c.User, c.Password, c.DBName, c.Schema, c.SSLMode]

/-- A row of the modelled store: a primary-key id and a payload standing for
the remaining columns of a gorm-mapped record. -/
structure Row where
  id : Nat
  payload : Nat
deriving DecidableEq, Repr

/-- Errors surfaced by the modelled engine: gorm's distinguished
`ErrRecordNotFound` sentinel, and driver/infrastructure failures. -/
inductive DBError where
  | recordNotFound : DBError
  | driver : Nat → DBError
deriving DecidableEq, Repr

/-- Modelled from the spec: gorm's `First` — the first row matching the
filter, the store being kept in primary-key order; when no row matches it
yields the distinguished record-not-found sentinel. -/
def gormFirst (q : Row → Bool) (s : List Row) : Except DBError Row :=
  match s.find? q with
  | some r => Except.ok r
  | none => Except.error DBError.recordNotFound

/-- Modelled from the spec: gorm's `Delete(model)` on a primary-keyed model —
removes exactly the rows whose primary key equals the model's, regardless of
any other condition. -/
def gormDeleteByPk (m : Row) (s : List Row) : List Row :=
  s.filter (fun r => r.id != m.id)

/-- Modelled from the spec: gorm's `Count` — the number of rows matching the
filter. A driver fault, made explicit as a parameter, leaves the Go output
variable at its zero value and surfaces the error. -/
def gormCount (fault : Option DBError) (q : Row → Bool) (s : List Row) :
    Int × Option DBError :=
  match fault with
  | some e => (0, some e)
  | none => (((s.filter q).length : Int), none)

/-- Modelled from the spec: gorm's `Transaction` — runs the callback against
the current store; a nil return commits the callback's writes, a non-nil
return rolls every write back, leaving the store as it was. -/
def gormTransaction (fn : List Row → List Row × Option DBError) (s : List Row) :
    List Row × Option DBError :=
  match fn s with
  | (s2, none) => (s2, none)
  | (_, some e) => (s, some e)

/-- The outcomes of the three fallible connection steps taken by `NewPostgres`:
`gorm.Open`, `db.DB()`, and `sqlDB.Ping()`, each modelled as an explicit
driver verdict. -/
structure GormOutcome where
  openErr : Option DBError
  dbErr : Option DBError
  pingErr : Option DBError
deriving DecidableEq, Repr

/-- The connection handle a constructor returns: the DSN it was opened with
and whether verbose statement logging (gorm debug mode) is enabled on it. -/
structure Handle where
  dsn : String
  debugLogging : Bool
deriving DecidableEq, Repr

namespace Postgres

/-- `NewPostgres` from `src/postgres/Postgres.go`: open with the config's DSN,
obtain the low-level handle, ping; each failure returns `(nil, err)` at once,
with no retry. This variant never reads `cfg.Debug` and never calls
`db.Debug()`, so logging is never enabled on the handle. -/
def NewPostgres (cfg : Config) (o : GormOutcome) : Option Handle × Option DBError :=
  match o.openErr with
  | some e => (none, some e)
  | none =>
    match o.dbErr with
    | some e => (none, some e)
    | none =>
      match o.pingErr with
      | some e => (none, some e)
      | none => (some ⟨cfg.GetDSN, false⟩, none)

/-- `SelectOne` from `src/postgres/Postgres.go` (textually identical in
`src/unnamed/part_000`): `First` into the caller's model; the found row
overwrites the model, a failure leaves it and returns the error. -/
def SelectOne (q : Row → Bool) (model : Row) (s : List Row) : Row × Option DBError :=
  match gormFirst q s with
  | Except.ok r => (r, none)
  | Except.error e => (model, some e)

/-- `DeleteOne` from `src/postgres/Postgres.go` (textually identical in
`src/unnamed/part_000`): `First` into the caller's model, returning its error
when the lookup fails; otherwise `Delete(model)`, scoped by the fetched
model's primary key. `deleteFault` is the driver's verdict on that second
statement; a failed delete leaves the store unchanged. -/
def DeleteOne (deleteFault : Option DBError) (q : Row → Bool) (model : Row)
    (s : List Row) : List Row × Row × Option DBError :=
  match gormFirst q s with
  | Except.error e => (s, model, some e)
  | Except.ok r =>
    match deleteFault with
    | some e => (s, r, some e)
    | none => (gormDeleteByPk r s, r, none)

/-- `Count` from `src/postgres/Postgres.go`: delegates to the engine's count,
returning the counted value together with the error. -/
def Count (fault : Option DBError) (q : Row → Bool) (s : List Row) :
    Int × Option DBError :=
  gormCount fault q s

/-- `Exists` from `src/postgres/Postgres.go`: calls `Count` on the same
inputs and returns `count > 0` together with `Count`'s error. -/
def Exists (fault : Option DBError) (q : Row → Bool) (s : List Row) :
    Bool × Option DBError :=
  let r := Count fault q s
  (decide (0 < r.1), r.2)

/-- `WithTransaction` from `src/postgres/Postgres.go`: a direct delegation to
the engine's `Transaction`. -/
def WithTransaction (fn : List Row → List Row × Option DBError) (s : List Row) :
    List Row × Option DBError :=
  gormTransaction fn s

end Postgres

namespace Client

/-- `NewPostgres` from `src/unnamed/part_000`: the same open/handle/ping
sequence, but after a successful ping this variant enables gorm debug mode
(`db = db.Debug()`) exactly when `cfg.Debug` is set. -/
def NewPostgres (cfg : Config) (o : GormOutcome) : Option Handle × Option DBError :=
  match o.openErr with
  | some e => (none, some e)
  | none =>
    match o.dbErr with
    | some e => (none, some e)
    | none =>
      match o.pingErr with
      | some e => (none, some e)
      | none => (some ⟨cfg.GetDSN, cfg.Debug⟩, none)

end Client

/-- Character-level evaluation of the DSN format string: each literal segment
is emitted verbatim and each `%s` consumes the next argument. -/
theorem sprintf_dsn_data (h p u w d s m : String) :
    (sprintf "host=%s port=%s user=%s password=%s dbname=%s search_path=%s sslmode=%s"
        [h, p, u, w, d, s, m]).data =
      "host=".data ++ (h.data ++ (" port=".data ++ (p.data ++ (" user=".data ++ (u.data ++
        (" password=".data ++ (w.data ++ (" dbname=".data ++ (d.data ++
        (" search_path=".data ++ (s.data ++ (" sslmode=".data ++ (m.data ++ []))))))))))))) := by
  rfl

/-- The DSN format applied to seven arguments is plain concatenation of the
fixed segments with the argument values, in order and unescaped. -/
theorem dsn_concat (h p u w d s m : String) :
    sprintf "host=%s port=%s user=%s password=%s dbname=%s search_path=%s sslmode=%s"
        [h, p, u, w, d, s, m] =
      "host=" ++ h ++ " port=" ++ p ++ " user=" ++ u ++ " password=" ++ w ++ " dbname=" ++ d
        ++ " search_path=" ++ s ++ " sslmode=" ++ m := by
  apply String.ext
  rw [sprintf_dsn_data]
  simp [String.data_append, List.append_assoc]

/-- C1: with every environment lookup returning the empty string, the loaded
configuration's DSN is exactly the documented default descriptor. -/
theorem c1_default_dsn :
    (NewConfig (fun _ => "")).GetDSN =
      "host=localhost port=5432 user=postgres password=postgres dbname=postgres search_path=public sslmode=disable" := by
  rfl

/-- C9: for every Config, the DSN is the concatenation of the seven fields in
fixed order, each as key=value, space-separated, with the values unescaped. -/
theorem c9_dsn_format (c : Config) :
    c.GetDSN =
      "host=" ++ c.Host ++ " port=" ++ c.Port ++ " user=" ++ c.User ++ " password="
        ++ c.Password ++ " dbname=" ++ c.DBName ++ " search_path=" ++ c.Schema
        ++ " sslmode=" ++ c.SSLMode :=
  dsn_concat c.Host c.Port c.User c.Password c.DBName c.Schema c.SSLMode

/-- C8: a non-empty, unparseable debug-flag value makes configuration loading
warn and fall back to the default (true), leaving every other field exactly as
if the variable were unset; loading never fails. -/
theorem c8_invalid_debug_bool (env : String → String)
    (h1 : env "DB_DEBUG_MODE" ≠ "")
    (h2 : parseBool (env "DB_DEBUG_MODE") = none) :
    NewConfig env = NewConfig (fun k => if k = "DB_DEBUG_MODE" then "" else env k)
    ∧ (NewConfig env).Debug = true
    ∧ (getEnvAsBool env "DB_DEBUG_MODE" true).2 = true := by
  refine ⟨?_, ?_, ?_⟩ <;> simp [NewConfig, getEnv, getEnvAsBool, h1, h2]

theorem c8_invalid_debug_bool_witness :
    NewConfig (fun k => if k = "DB_DEBUG_MODE" then "maybe" else "")
        = NewConfig (fun k => if k = "DB_DEBUG_MODE" then ""
            else (fun k2 => if k2 = "DB_DEBUG_MODE" then "maybe" else "") k)
    ∧ (NewConfig (fun k => if k = "DB_DEBUG_MODE" then "maybe" else "")).Debug = true
    ∧ (getEnvAsBool (fun k => if k = "DB_DEBUG_MODE" then "maybe" else "")
        "DB_DEBUG_MODE" true).2 = true :=
  c8_invalid_debug_bool (fun k => if k = "DB_DEBUG_MODE" then "maybe" else "")
    (by decide) (by decide)

/-- C6: Exists returns exactly the pair (count > 0, err) from Count on the
same inputs: false when the count is 0, true for any positive count, and the
error component propagated unchanged. -/
theorem c6_exists_count (fault : Option DBError) (q : Row → Bool) (s : List Row) :
    Postgres.Exists fault q s
        = (decide (0 < (Postgres.Count fault q s).1), (Postgres.Count fault q s).2)
    ∧ ((Postgres.Exists fault q s).1 = true ↔ 0 < (Postgres.Count fault q s).1)
    ∧ (Postgres.Exists fault q s).2 = (Postgres.Count fault q s).2 := by
  refine ⟨rfl, ?_, rfl⟩
  simp [Postgres.Exists]

/-- C4: WithTransaction commits the callback state exactly when the callback
returns no error, and rolls back to the initial state exactly when it returns
one, propagating the callback error either way. -/
theorem c4_withTransaction (fn : List Row → List Row × Option DBError) (s : List Row) :
    ((Postgres.WithTransaction fn s).2 = (fn s).2)
    ∧ ((fn s).2 = none → Postgres.WithTransaction fn s = fn s)
    ∧ (∀ e, (fn s).2 = some e → Postgres.WithTransaction fn s = (s, some e)) := by
  rcases h : fn s with ⟨s2, err⟩
  cases err <;> refine ⟨?_, ?_, ?_⟩ <;>
    simp [Postgres.WithTransaction, gormTransaction, h]

theorem c4_withTransaction_witness :
    Postgres.WithTransaction (fun s => (⟨5, 0⟩ :: s, none)) [] = ([⟨5, 0⟩], none)
    ∧ Postgres.WithTransaction (fun s => (⟨5, 0⟩ :: s, some (DBError.driver 3))) [⟨1, 1⟩]
        = ([⟨1, 1⟩], some (DBError.driver 3)) := by
  constructor
  · exact (c4_withTransaction (fun s => (⟨5, 0⟩ :: s, none)) []).2.1 rfl
  · exact (c4_withTransaction (fun s => (⟨5, 0⟩ :: s, some (DBError.driver 3)))
      [⟨1, 1⟩]).2.2 (DBError.driver 3) rfl

/-- C5: when no row matches the filter, SelectOne leaves the model and returns
the distinguished record-not-found signal, which differs from every driver
failure. -/
theorem c5_selectOne_not_found (q : Row → Bool) (model : Row) (s : List Row)
    (h : ∀ r ∈ s, q r = false) :
    Postgres.SelectOne q model s = (model, some DBError.recordNotFound)
    ∧ ∀ c, DBError.recordNotFound ≠ DBError.driver c := by
  constructor
  · have hf : s.find? q = none := List.find?_eq_none.mpr (fun x hx => by simp [h x hx])
    simp [Postgres.SelectOne, gormFirst, hf]
  · intro c hc
    exact DBError.noConfusion hc

theorem c5_selectOne_not_found_witness :
    Postgres.SelectOne (fun r => r.id == 99) ⟨0, 0⟩ [⟨1, 1⟩]
        = (⟨0, 0⟩, some DBError.recordNotFound)
    ∧ ∀ c, DBError.recordNotFound ≠ DBError.driver c :=
  c5_selectOne_not_found (fun r => r.id == 99) ⟨0, 0⟩ [⟨1, 1⟩] (by decide)

/-- C3: on a filter matching no row, DeleteOne returns the not-found signal
with the store unchanged whatever the delete driver would have said; on a
match it deletes exactly by the fetched row's primary key, independent of the
original filter. -/
theorem c3_deleteOne (fault : Option DBError) (q : Row → Bool) (model : Row)
    (s : List Row) :
    ((∀ r ∈ s, q r = false) →
        Postgres.DeleteOne fault q model s = (s, model, some DBError.recordNotFound))
    ∧ (∀ r, s.find? q = some r →
        Postgres.DeleteOne none q model s
          = (s.filter (fun x => x.id != r.id), r, none)) := by
  constructor
  · intro h
    have hf : s.find? q = none := List.find?_eq_none.mpr (fun x hx => by simp [h x hx])
    simp [Postgres.DeleteOne, gormFirst, hf]
  · intro r hr
    simp [Postgres.DeleteOne, gormFirst, gormDeleteByPk, hr]

theorem c3_deleteOne_witness :
    Postgres.DeleteOne (some (DBError.driver 7)) (fun r => r.id == 2) ⟨0, 0⟩ [⟨1, 10⟩]
        = ([⟨1, 10⟩], ⟨0, 0⟩, some DBError.recordNotFound)
    ∧ Postgres.DeleteOne none (fun r => r.id == 1) ⟨0, 0⟩ [⟨1, 10⟩]
        = ([], ⟨1, 10⟩, none) := by
  constructor
  · exact (c3_deleteOne (some (DBError.driver 7)) (fun r => r.id == 2) ⟨0, 0⟩
      [⟨1, 10⟩]).1 (by decide)
  · have h := (c3_deleteOne none (fun r => r.id == 1) ⟨0, 0⟩ [⟨1, 10⟩]).2 ⟨1, 10⟩ (by decide)
    simpa using h

/-- C10: when the lookup finds a row, DeleteOne overwrites the caller's model
with it even when the delete step then fails; when the lookup finds none, the
model is returned untouched and no delete happens. -/
theorem c10_deleteOne_model_mutation (q : Row → Bool) (model r : Row) (s : List Row)
    (e : DBError) :
    (s.find? q = some r →
        Postgres.DeleteOne (some e) q model s = (s, r, some e)
        ∧ Postgres.DeleteOne none q model s = (gormDeleteByPk r s, r, none))
    ∧ (s.find? q = none →
        ∀ fault, Postgres.DeleteOne fault q model s = (s, model, some DBError.recordNotFound)) := by
  constructor
  · intro hr
    constructor <;> simp [Postgres.DeleteOne, gormFirst, hr]
  · intro hn fault
    simp [Postgres.DeleteOne, gormFirst, hn]

theorem c10_deleteOne_model_mutation_witness :
    Postgres.DeleteOne (some (DBError.driver 4)) (fun r => r.id == 1) ⟨0, 0⟩ [⟨1, 10⟩]
        = ([⟨1, 10⟩], ⟨1, 10⟩, some (DBError.driver 4))
    ∧ Postgres.DeleteOne none (fun r => r.id == 3) ⟨7, 7⟩ [⟨1, 10⟩]
        = ([⟨1, 10⟩], ⟨7, 7⟩, some DBError.recordNotFound) := by
  constructor
  · exact ((c10_deleteOne_model_mutation (fun r => r.id == 1) ⟨0, 0⟩ ⟨1, 10⟩ [⟨1, 10⟩]
      (DBError.driver 4)).1 (by decide)).1
  · exact (c10_deleteOne_model_mutation (fun r => r.id == 3) ⟨7, 7⟩ ⟨1, 10⟩ [⟨1, 10⟩]
      (DBError.driver 4)).2 (by decide) none

/-- C7: each constructor fails fast with (nil, err) when the driver open or
the ping fails, and on an all-clear it returns a ready handle with no error. -/
theorem c7_connect_fail_fast (cfg : Config) (e : DBError) (d p : Option DBError) :
    Postgres.NewPostgres cfg ⟨some e, d, p⟩ = (none, some e)
    ∧ Postgres.NewPostgres cfg ⟨none, none, some e⟩ = (none, some e)
    ∧ Postgres.NewPostgres cfg ⟨none, none, none⟩ = (some ⟨cfg.GetDSN, false⟩, none)
    ∧ Client.NewPostgres cfg ⟨some e, d, p⟩ = (none, some e)
    ∧ Client.NewPostgres cfg ⟨none, none, some e⟩ = (none, some e)
    ∧ Client.NewPostgres cfg ⟨none, none, none⟩ = (some ⟨cfg.GetDSN, cfg.Debug⟩, none) :=
  ⟨rfl, rfl, rfl, rfl, rfl, rfl⟩

/-- C2 fails on `src/postgres/Postgres.go`: with the default config (debug
flag true) and a fully successful connection, that file's constructor returns
a handle with statement logging disabled. -/
theorem c2_debug_counterexample :
    (NewConfig (fun _ => "")).Debug = true
    ∧ (Postgres.NewPostgres (NewConfig (fun _ => "")) ⟨none, none, none⟩).1
        = some ⟨(NewConfig (fun _ => "")).GetDSN, false⟩
    ∧ (Postgres.NewPostgres (NewConfig (fun _ => "")) ⟨none, none, none⟩).2 = none :=
  ⟨rfl, rfl, rfl⟩

/-- C2 amended: the Client constructor of `src/unnamed/part_000` enables
verbose statement logging on the returned handle exactly when the config's
debug flag is set; the constructor of `src/postgres/Postgres.go` never
enables it, whatever the flag. -/
theorem c2_debug_toggle (cfg : Config) (o : GormOutcome) (h : Handle) :
    ((Client.NewPostgres cfg o).1 = some h → h.debugLogging = cfg.Debug)
    ∧ ((Postgres.NewPostgres cfg o).1 = some h → h.debugLogging = false) := by
  obtain ⟨oe, de, pe⟩ := o
  cases oe <;> cases de <;> cases pe <;> constructor <;> intro hh <;>
    simp_all [Client.NewPostgres, Postgres.NewPostgres] <;> (subst hh; rfl)

theorem c2_debug_toggle_witness :
    (Handle.mk (Config.GetDSN ⟨"h", "p", "u", "w", "d", "s", "m", true⟩) true).debugLogging
        = (⟨"h", "p", "u", "w", "d", "s", "m", true⟩ : Config).Debug
    ∧ (Handle.mk (Config.GetDSN ⟨"h", "p", "u", "w", "d", "s", "m", true⟩) false).debugLogging
        = false := by
  constructor
  · exact (c2_debug_toggle ⟨"h", "p", "u", "w", "d", "s", "m", true⟩ ⟨none, none, none⟩
      ⟨Config.GetDSN ⟨"h", "p", "u", "w", "d", "s", "m", true⟩, true⟩).1 rfl
  · exact (c2_debug_toggle ⟨"h", "p", "u", "w", "d", "s", "m", true⟩ ⟨none, none, none⟩
      ⟨Config.GetDSN ⟨"h", "p", "u", "w", "d", "s", "m", true⟩, false⟩).2 rfl

end GoPostgres
